import Mathlib

/-!
# Objective-C enum field generators (`enum_field.cc`)

A shallow embedding of `google/protobuf/compiler/objectivec/enum_field.cc`:
`SetEnumVariables`, `EnumFieldGenerator` and `RepeatedEnumFieldGenerator`.

The descriptor model, the naming helpers of `names.h`, the base classes of
`field.h` and `io::Printer` are declared outside this source file.  The
descriptor types carry exactly the accessors the source calls; the naming
helpers and the base-class behaviour are parameters (`Collaborators`); the
printer is modelled as a text sink with placeholder substitution; the
raw-accessor passes of the repeated generator, which this file does not define,
are modelled from the spec.
-/

namespace ObjectiveC

/-! ## Descriptor model -/

/-- A schema file.  The source compares `const FileDescriptor*` pointers; one
descriptor pool holds one descriptor per file name, so identity is the name. -/
structure FileDescriptor where
  name : String
deriving DecidableEq, Repr

/-- An enum type: what `enum_type()->file()` and `enum_type()->is_closed()`
read, and its name. -/
structure EnumDescriptor where
  name : String
  file : FileDescriptor
  is_closed : Bool
deriving DecidableEq, Repr

/-- A message type (`containing_type()`); the source only passes it to
`ClassName`. -/
structure Descriptor where
  name : String
deriving DecidableEq, Repr

/-- An enum-typed field: `enum_type()` is non-null.  `file` is what
`descriptor->file()` returns, the file declaring the field. -/
structure FieldDescriptor where
  name : String
  number : Int
  is_repeated : Bool
  enum_type : EnumDescriptor
  containing_type : Descriptor
  file : FileDescriptor
deriving DecidableEq, Repr

/-! ## The variable table -/

/-- The table `variables_` (`absl::flat_hash_map<string_view, std::string>`):
unique keys, no order; a key is absent when the lookup is `none`. -/
abbrev Vars := String → Option String

/-- The assignment `(*variables)[key] = value`: insert or overwrite. -/
def Vars.set (vars : Vars) (key value : String) : Vars :=
  fun k => if k = key then some value else vars k

/-- The lookup `FieldGenerator::variable(key)`; `none` where the source would
dereference the end iterator. -/
def variable_ (vars : Vars) (key : String) : Option String :=
  vars key

/-! ## The printer -/

/-- The output sink behind `io::Printer*`: the text written so far. -/
structure Printer where
  out : String
deriving DecidableEq, Repr

/-- A piece of a format line: literal text, or a placeholder `$key$`. -/
inductive Piece where
  | text (s : String)
  | var (key : String)
deriving DecidableEq, Repr

/-- Modelled from the spec: placeholder substitution of `io::Printer` (declared in
`io/printer.h`), which "substitutes named placeholders into literal output
text"; a placeholder with no entry in the table has no expansion. -/
def Printer.Substitute (vars : Vars) : List Piece → Option String
  | [] => some ""
  | Piece.text s :: rest =>
    match Printer.Substitute vars rest with
    | some r => some (s ++ r)
    | none => none
  | Piece.var key :: rest =>
    match vars key, Printer.Substitute vars rest with
    | some v, some r => some (v ++ r)
    | _, _ => none

/-- Modelled from the spec: the call `printer->WithVars(vars)` followed by
`printer->Emit(format)` of `io::Printer` (declared in `io/printer.h`).  The
format is given as its lines, the raw string without its leading newline, its
common indentation and its closing whitespace line; every line is expanded and
written with a newline, at indentation zero; `none` when a placeholder is
undefined.  The format `"\n"` is the single empty line. -/
def Printer.Emit (printer : Printer) (vars : Vars) : List (List Piece) → Option Printer
  | [] => some printer
  | line :: rest =>
    match Printer.Substitute vars line with
    | some s => Printer.Emit { out := printer.out ++ s ++ "\n" } vars rest
    | none => none

/-! ## External collaborators -/

/-- What `enum_field.cc` consumes from `names.h` and from the base classes of
`field.h`, none of which is part of this source file. -/
structure Collaborators where
  /-- The helper `EnumName(const EnumDescriptor*)` of `names.h`. -/
  EnumName : EnumDescriptor → String
  /-- The helper `ClassName(const Descriptor*)` of `names.h`. -/
  ClassName : Descriptor → String
  /-- The predicate `IsProtobufLibraryBundledProtoFile(const FileDescriptor*)`. -/
  IsProtobufLibraryBundledProtoFile : FileDescriptor → Bool
  /-- The table `variables_` as the base constructor
  `SingleFieldGenerator(descriptor)` leaves it. -/
  SingleFieldGenerator_variables : FieldDescriptor → Vars
  /-- The table `variables_` as the base constructor
  `RepeatedFieldGenerator(descriptor)` leaves it. -/
  RepeatedFieldGenerator_variables : FieldDescriptor → Vars
  /-- The base `SingleFieldGenerator::DetermineForwardDeclarations`. -/
  SingleFieldGenerator_DetermineForwardDeclarations :
    FieldDescriptor → Finset String → Bool → Finset String
  /-- The base `DetermineForwardDeclarations` a repeated generator inherits. -/
  RepeatedFieldGenerator_DetermineForwardDeclarations :
    FieldDescriptor → Finset String → Bool → Finset String

/-! ## `SetEnumVariables` and the constructors -/

/-- The function `SetEnumVariables(descriptor, variables)`. -/
def SetEnumVariables (env : Collaborators) (descriptor : FieldDescriptor)
    (vars : Vars) : Vars :=
  let type := env.EnumName descriptor.enum_type
  let enum_desc_func := type ++ "_EnumDescriptor"
  let v := vars.set "storage_type" type
  let v :=
    if !descriptor.is_repeated ∧ descriptor.file ≠ descriptor.enum_type.file then
      v.set "property_type" ("enum " ++ type)
    else v
  let v := v.set "enum_verifier" (type ++ "_IsValidValue")
  let v := v.set "enum_desc_func" enum_desc_func
  let v := v.set "dataTypeSpecific_name" "enumDescFunc"
  let v := v.set "dataTypeSpecific_value" enum_desc_func
  let msg_descriptor := descriptor.containing_type
  v.set "owning_message_class" (env.ClassName msg_descriptor)

/-- An `EnumFieldGenerator`: the members `descriptor_` and `variables_`. -/
structure EnumFieldGenerator where
  descriptor_ : FieldDescriptor
  variables_ : Vars

/-- A `RepeatedEnumFieldGenerator`: the members `descriptor_` and `variables_`. -/
structure RepeatedEnumFieldGenerator where
  descriptor_ : FieldDescriptor
  variables_ : Vars

/-- The constructor `EnumFieldGenerator::EnumFieldGenerator(descriptor)`: the
base constructor, then `SetEnumVariables`. -/
def EnumFieldGenerator.new (env : Collaborators) (descriptor : FieldDescriptor) :
    EnumFieldGenerator :=
  { descriptor_ := descriptor
    variables_ :=
      SetEnumVariables env descriptor (env.SingleFieldGenerator_variables descriptor) }

/-- The constructor `RepeatedEnumFieldGenerator::RepeatedEnumFieldGenerator`:
the base constructor, `SetEnumVariables`, then `array_storage_type`. -/
def RepeatedEnumFieldGenerator.new (env : Collaborators) (descriptor : FieldDescriptor) :
    RepeatedEnumFieldGenerator :=
  { descriptor_ := descriptor
    variables_ :=
      (SetEnumVariables env descriptor
        (env.RepeatedFieldGenerator_variables descriptor)).set
        "array_storage_type" "GPBEnumArray" }

/-! ## Raw accessor emission -/

/-- The format of `GenerateCFunctionDeclarations`, line by line. -/
def CFunctionDeclarationsFormat : List (List Piece) :=
  [ [.text "/**"],
    [.text " * Fetches the raw value of a @c ", .var "owning_message_class",
     .text "\x27s @c ", .var "name", .text " property, even"],
    [.text " * if the value was not defined by the enum at the time the code was generated."],
    [.text " **/"],
    [.text "int32_t ", .var "owning_message_class", .text "_", .var "capitalized_name",
     .text "_RawValue(", .var "owning_message_class", .text " *message);"],
    [.text "/**"],
    [.text " * Sets the raw value of an @c ", .var "owning_message_class",
     .text "\x27s @c ", .var "name", .text " property, allowing"],
    [.text " * it to be set to a value that was not defined by the enum at the time the code"],
    [.text " * was generated."],
    [.text " **/"],
    [.text "void Set", .var "owning_message_class", .text "_", .var "capitalized_name",
     .text "_RawValue(", .var "owning_message_class", .text " *message, int32_t value);"] ]

/-- The format of `GenerateCFunctionImplementations`, line by line. -/
def CFunctionImplementationsFormat : List (List Piece) :=
  [ [.text "int32_t ", .var "owning_message_class", .text "_", .var "capitalized_name",
     .text "_RawValue(", .var "owning_message_class", .text " *message) \x7b"],
    [.text "  GPBDescriptor *descriptor = [", .var "owning_message_class",
     .text " descriptor];"],
    [.text "  GPBFieldDescriptor *field = [descriptor fieldWithNumber:",
     .var "field_number_name", .text "];"],
    [.text "  return GPBGetMessageRawEnumField(message, field);"],
    [.text "\x7d"],
    [],
    [.text "void Set", .var "owning_message_class", .text "_", .var "capitalized_name",
     .text "_RawValue(", .var "owning_message_class", .text " *message, int32_t value) \x7b"],
    [.text "  GPBDescriptor *descriptor = [", .var "owning_message_class",
     .text " descriptor];"],
    [.text "  GPBFieldDescriptor *field = [descriptor fieldWithNumber:",
     .var "field_number_name", .text "];"],
    [.text "  GPBSetMessageRawEnumField(message, field, value);"],
    [.text "\x7d"] ]

/-- The method `EnumFieldGenerator::GenerateCFunctionDeclarations`. -/
def EnumFieldGenerator.GenerateCFunctionDeclarations (g : EnumFieldGenerator)
    (printer : Printer) : Option Printer :=
  if g.descriptor_.enum_type.is_closed then some printer
  else
    match printer.Emit g.variables_ CFunctionDeclarationsFormat with
    | some printer => printer.Emit g.variables_ [[]]
    | none => none

/-- The method `EnumFieldGenerator::GenerateCFunctionImplementations`. -/
def EnumFieldGenerator.GenerateCFunctionImplementations (g : EnumFieldGenerator)
    (printer : Printer) : Option Printer :=
  if g.descriptor_.enum_type.is_closed then some printer
  else
    match printer.Emit g.variables_ CFunctionImplementationsFormat with
    | some printer => printer.Emit g.variables_ [[]]
    | none => none

/-- Modelled from the spec: the raw-accessor declaration pass of the repeated
rule.  `RepeatedEnumFieldGenerator` defines no `GenerateCFunctionDeclarations` in
this file, and the method it inherits (declared in `field.h`) is not part of the
source.  The spec has accessor emission "only for EnumFieldRule" and says the
"repeated variant never emits it in this core": the sink is returned as given. -/
def RepeatedEnumFieldGenerator.GenerateCFunctionDeclarations
    (_g : RepeatedEnumFieldGenerator) (printer : Printer) : Option Printer :=
  some printer

/-- Modelled from the spec: the raw-accessor implementation pass of the repeated
rule.  `RepeatedEnumFieldGenerator` defines no `GenerateCFunctionImplementations`
in this file, and the method it inherits (declared in `field.h`) is not part of
the source.  The spec has accessor emission "only for EnumFieldRule" and says the
"repeated variant never emits it in this core": the sink is returned as given. -/
def RepeatedEnumFieldGenerator.GenerateCFunctionImplementations
    (_g : RepeatedEnumFieldGenerator) (printer : Printer) : Option Printer :=
  some printer

/-- The placeholders a format refers to. -/
def FormatKeys (format : List (List Piece)) : List String :=
  format.flatten.filterMap fun
    | Piece.var key => some key
    | Piece.text _ => none

/-- The signature `int32_t C_N_RawValue(C *message)` of the raw getter. -/
def RawValueGetterSignature (C N : String) : String :=
  "int32_t " ++ C ++ "_" ++ N ++ "_RawValue(" ++ C ++ " *message)"

/-- The signature `void SetC_N_RawValue(C *message, int32_t value)` of the raw
setter. -/
def RawValueSetterSignature (C N : String) : String :=
  "void Set" ++ C ++ "_" ++ N ++ "_RawValue(" ++ C ++ " *message, int32_t value)"

/-! ## Forward declarations and needed files -/

/-- The method `EnumFieldGenerator::DetermineForwardDeclarations`; `none` when the
lookup of `storage_type` fails. -/
def EnumFieldGenerator.DetermineForwardDeclarations (env : Collaborators)
    (g : EnumFieldGenerator) (fwd_decls : Finset String)
    (include_external_types : Bool) : Option (Finset String) :=
  let fwd_decls :=
    env.SingleFieldGenerator_DetermineForwardDeclarations g.descriptor_ fwd_decls
      include_external_types
  if include_external_types ∧
      g.descriptor_.file ≠ g.descriptor_.enum_type.file ∧
      !env.IsProtobufLibraryBundledProtoFile g.descriptor_.enum_type.file then
    match variable_ g.variables_ "storage_type" with
    | some name => some (insert ("GPB_ENUM_FWD_DECLARE(" ++ name ++ ");") fwd_decls)
    | none => none
  else some fwd_decls

/-- The repeated generator declares no `DetermineForwardDeclarations`: the call
runs the inherited base method. -/
def RepeatedEnumFieldGenerator.DetermineForwardDeclarations (env : Collaborators)
    (g : RepeatedEnumFieldGenerator) (fwd_decls : Finset String)
    (include_external_types : Bool) : Finset String :=
  env.RepeatedFieldGenerator_DetermineForwardDeclarations g.descriptor_ fwd_decls
    include_external_types

/-- The method `EnumFieldGenerator::DetermineNeededFiles`. -/
def EnumFieldGenerator.DetermineNeededFiles (g : EnumFieldGenerator)
    (deps : Finset FileDescriptor) : Finset FileDescriptor :=
  if g.descriptor_.file ≠ g.descriptor_.enum_type.file then
    insert g.descriptor_.enum_type.file deps
  else deps

/-- The method `RepeatedEnumFieldGenerator::DetermineNeededFiles`. -/
def RepeatedEnumFieldGenerator.DetermineNeededFiles (g : RepeatedEnumFieldGenerator)
    (deps : Finset FileDescriptor) : Finset FileDescriptor :=
  if g.descriptor_.file ≠ g.descriptor_.enum_type.file then
    insert g.descriptor_.enum_type.file deps
  else deps

/-! ## Sample descriptors -/

/-- The file `widget.proto`. -/
def widgetProto : FileDescriptor := { name := "widget.proto" }

/-- The file `colors.proto`. -/
def colorsProto : FileDescriptor := { name := "colors.proto" }

/-- The message `Widget`. -/
def widgetMessage : Descriptor := { name := "Widget" }

/-- The enum `Color`, declared in `file`. -/
def colorEnum (file : FileDescriptor) (is_closed : Bool) : EnumDescriptor :=
  { name := "Color", file := file, is_closed := is_closed }

/-- The singular field `status = 3` of `Widget` (in `widget.proto`), of enum
`Color`. -/
def statusField (enumFile : FileDescriptor) (is_closed : Bool) : FieldDescriptor :=
  { name := "status", number := 3, is_repeated := false,
    enum_type := colorEnum enumFile is_closed,
    containing_type := widgetMessage, file := widgetProto }

/-- The repeated field `colors = 4` of `Widget` (in `widget.proto`), of enum
`Color`. -/
def colorsField (enumFile : FileDescriptor) (is_closed : Bool) : FieldDescriptor :=
  { name := "colors", number := 4, is_repeated := true,
    enum_type := colorEnum enumFile is_closed,
    containing_type := widgetMessage, file := widgetProto }

/-- The first character in upper case. -/
def capitalizeFirst (s : String) : String :=
  match s.data with
  | [] => ""
  | c :: cs => String.mk (c.toUpper :: cs)

/-- A base table with the entries the formats read: `name`, `capitalized_name`
and `field_number_name`; `property_type` and `array_storage_type` are absent. -/
def sampleBaseVariables (descriptor : FieldDescriptor) : Vars :=
  fun k =>
    if k = "name" then some descriptor.name
    else if k = "capitalized_name" then some (capitalizeFirst descriptor.name)
    else if k = "field_number_name" then
      some (descriptor.containing_type.name ++ "_FieldNumber_" ++
        capitalizeFirst descriptor.name)
    else none

/-- Sample collaborators: names without a class prefix, the bundled files under
`google/protobuf/`, and base methods that add nothing. -/
def sampleCollaborators : Collaborators :=
  { EnumName := fun e => e.name
    ClassName := fun m => m.name
    IsProtobufLibraryBundledProtoFile := fun f =>
      decide (f.name ∈ ["google/protobuf/any.proto", "google/protobuf/timestamp.proto"])
    SingleFieldGenerator_variables := sampleBaseVariables
    RepeatedFieldGenerator_variables := sampleBaseVariables
    SingleFieldGenerator_DetermineForwardDeclarations := fun _ fwd_decls _ => fwd_decls
    RepeatedFieldGenerator_DetermineForwardDeclarations := fun _ fwd_decls _ => fwd_decls }

/-! ## The array comment -/

/-- The format of `EmitArrayComment`, line by line. -/
def ArrayCommentFormat : List (List Piece) :=
  [ [.text "// |", .var "name", .text "| contains |", .var "storage_type", .text "|"] ]

/-- The method `RepeatedEnumFieldGenerator::EmitArrayComment`. -/
def RepeatedEnumFieldGenerator.EmitArrayComment (g : RepeatedEnumFieldGenerator)
    (printer : Printer) : Option Printer :=
  printer.Emit g.variables_ ArrayCommentFormat

/-! ## Several fields against the same sets -/

/-- Modelled from the spec: the step of the message-level generator for one
field, which "instantiates the appropriate rule per field" (singular or
repeated) and asks it for its needed files. -/
def FieldNeededFiles (env : Collaborators) (deps : Finset FileDescriptor)
    (descriptor : FieldDescriptor) : Finset FileDescriptor :=
  if descriptor.is_repeated then
    (RepeatedEnumFieldGenerator.new env descriptor).DetermineNeededFiles deps
  else (EnumFieldGenerator.new env descriptor).DetermineNeededFiles deps

/-- Modelled from the spec: the dependency set "accessed by multiple field rules
sequentially within one generation pass", one field after the other. -/
def FieldsNeededFiles (env : Collaborators) (fields : List FieldDescriptor)
    (deps : Finset FileDescriptor) : Finset FileDescriptor :=
  fields.foldl (FieldNeededFiles env) deps

/-- Modelled from the spec: the forward-declaration set passed through the
singular rules of several fields, one field after the other; `none` as soon as
one call fails. -/
def FieldsForwardDeclarations (env : Collaborators) (include_external_types : Bool) :
    List FieldDescriptor → Finset String → Option (Finset String)
  | [], fwd_decls => some fwd_decls
  | descriptor :: rest, fwd_decls =>
    match (EnumFieldGenerator.new env descriptor).DetermineForwardDeclarations env fwd_decls
        include_external_types with
    | some fwd_decls => FieldsForwardDeclarations env include_external_types rest fwd_decls
    | none => none

/-! ## More sample descriptors -/

/-- The bundled file `google/protobuf/any.proto`. -/
def anyProto : FileDescriptor := { name := "google/protobuf/any.proto" }

/-- The message `Gadget`. -/
def gadgetMessage : Descriptor := { name := "Gadget" }

/-- The enum `Shape`, declared in `shapes.proto`. -/
def shapeEnum : EnumDescriptor :=
  { name := "Shape", file := { name := "shapes.proto" }, is_closed := false }

/-- The singular field `shape = 5` of `Widget` (in `widget.proto`), of enum
`Shape`. -/
def shapeField : FieldDescriptor :=
  { name := "shape", number := 5, is_repeated := false, enum_type := shapeEnum,
    containing_type := widgetMessage, file := widgetProto }

/-- Sample collaborators whose base constructor already left a `storage_type`
entry, `Stale`. -/
def staleCollaborators : Collaborators :=
  { sampleCollaborators with
    SingleFieldGenerator_variables := fun descriptor =>
      (sampleBaseVariables descriptor).set "storage_type" "Stale" }

/-! ## Lookups in the constructed table -/

/-- The keys `SetEnumVariables` may write. -/
def SetEnumVariablesKeys : List String :=
  ["storage_type", "property_type", "enum_verifier", "enum_desc_func",
   "dataTypeSpecific_name", "dataTypeSpecific_value", "owning_message_class"]

theorem Vars.set_same (vars : Vars) (key value : String) :
    vars.set key value key = some value := by
  simp [Vars.set]

theorem Vars.set_other (vars : Vars) (key value k : String) (h : k ≠ key) :
    vars.set key value k = vars k := by
  simp [Vars.set, h]

theorem SetEnumVariables_storage_type (env : Collaborators) (descriptor : FieldDescriptor)
    (vars : Vars) :
    SetEnumVariables env descriptor vars "storage_type"
      = some (env.EnumName descriptor.enum_type) := by
  unfold SetEnumVariables
  split_ifs <;> simp [Vars.set]

theorem SetEnumVariables_property_type (env : Collaborators) (descriptor : FieldDescriptor)
    (vars : Vars) :
    SetEnumVariables env descriptor vars "property_type"
      = if descriptor.is_repeated = false ∧ descriptor.file ≠ descriptor.enum_type.file then
          some ("enum " ++ env.EnumName descriptor.enum_type)
        else vars "property_type" := by
  unfold SetEnumVariables
  by_cases h : descriptor.is_repeated = false ∧ descriptor.file ≠ descriptor.enum_type.file
  · simp [Vars.set, h]
  · have h2 : ¬ ((!descriptor.is_repeated) = true ∧
        descriptor.file ≠ descriptor.enum_type.file) := by
      simpa using h
    simp only [h, h2, if_false]
    simp [Vars.set]

theorem SetEnumVariables_enum_verifier (env : Collaborators) (descriptor : FieldDescriptor)
    (vars : Vars) :
    SetEnumVariables env descriptor vars "enum_verifier"
      = some (env.EnumName descriptor.enum_type ++ "_IsValidValue") := by
  simp [SetEnumVariables, Vars.set]

theorem SetEnumVariables_enum_desc_func (env : Collaborators) (descriptor : FieldDescriptor)
    (vars : Vars) :
    SetEnumVariables env descriptor vars "enum_desc_func"
      = some (env.EnumName descriptor.enum_type ++ "_EnumDescriptor") := by
  simp [SetEnumVariables, Vars.set]

theorem SetEnumVariables_owning_message_class (env : Collaborators)
    (descriptor : FieldDescriptor) (vars : Vars) :
    SetEnumVariables env descriptor vars "owning_message_class"
      = some (env.ClassName descriptor.containing_type) := by
  simp [SetEnumVariables, Vars.set]

theorem SetEnumVariables_other (env : Collaborators) (descriptor : FieldDescriptor)
    (vars : Vars) (k : String) (hk : k ∉ SetEnumVariablesKeys) :
    SetEnumVariables env descriptor vars k = vars k := by
  simp only [SetEnumVariablesKeys, List.mem_cons, List.mem_singleton, not_or,
    List.mem_nil_iff, or_false] at hk
  obtain ⟨h1, h2, h3, h4, h5, h6, h7⟩ := hk
  unfold SetEnumVariables
  split_ifs <;> simp [Vars.set, h1, h2, h3, h4, h5, h6, h7]

/-! ## Raw accessor emission: closed and open enums -/

/-- C1: for a field whose enum type is closed, `GenerateCFunctionDeclarations` and
`GenerateCFunctionImplementations` of the singular generator return the sink they
were given, whatever the name, number, message and files of the field and the
table of the generator are.  The repeated generator, whose two passes are
modelled from the spec, returns the sink it was given as well, for every field
and so for every field of a closed enum. -/
theorem closed_enum_emits_nothing (g : EnumFieldGenerator) (r : RepeatedEnumFieldGenerator)
    (printer : Printer) (hclosed : g.descriptor_.enum_type.is_closed = true) :
    g.GenerateCFunctionDeclarations printer = some printer ∧
    g.GenerateCFunctionImplementations printer = some printer ∧
    r.GenerateCFunctionDeclarations printer = some printer ∧
    r.GenerateCFunctionImplementations printer = some printer := by
  refine ⟨?_, ?_, rfl, rfl⟩
  · simp [EnumFieldGenerator.GenerateCFunctionDeclarations, hclosed]
  · simp [EnumFieldGenerator.GenerateCFunctionImplementations, hclosed]

/-- Scenario B: `status` and the repeated `colors` of `Widget` with the closed enum
`Color` leave the sink as it was. -/
theorem closed_enum_emits_nothing_witness :
    (EnumFieldGenerator.new sampleCollaborators
        (statusField widgetProto true)).GenerateCFunctionDeclarations { out := "// head\n" }
      = some { out := "// head\n" } ∧
    (EnumFieldGenerator.new sampleCollaborators
        (statusField widgetProto true)).GenerateCFunctionImplementations { out := "// head\n" }
      = some { out := "// head\n" } ∧
    (RepeatedEnumFieldGenerator.new sampleCollaborators
        (colorsField colorsProto true)).GenerateCFunctionDeclarations { out := "// head\n" }
      = some { out := "// head\n" } ∧
    (RepeatedEnumFieldGenerator.new sampleCollaborators
        (colorsField colorsProto true)).GenerateCFunctionImplementations { out := "// head\n" }
      = some { out := "// head\n" } :=
  closed_enum_emits_nothing
    (EnumFieldGenerator.new sampleCollaborators (statusField widgetProto true))
    (RepeatedEnumFieldGenerator.new sampleCollaborators (colorsField colorsProto true))
    { out := "// head\n" } rfl

/-- C2: for a field whose enum type is open, with class name `C` of the containing
message, field name `n` and capitalized name `N`, `GenerateCFunctionDeclarations`
appends exactly two documented signatures, each closed by `;`: the getter
`int32_t C_N_RawValue(C *message)` and the setter
`void SetC_N_RawValue(C *message, int32_t value)`, then an empty line.  The two
signatures are functions of `C` and `N` alone. -/
theorem open_enum_declarations (env : Collaborators) (descriptor : FieldDescriptor)
    (printer : Printer) (n N : String)
    (hopen : descriptor.enum_type.is_closed = false)
    (hn : env.SingleFieldGenerator_variables descriptor "name" = some n)
    (hN : env.SingleFieldGenerator_variables descriptor "capitalized_name" = some N) :
    (EnumFieldGenerator.new env descriptor).GenerateCFunctionDeclarations printer
      = some { out := printer.out
          ++ "/**\n"
          ++ (" * Fetches the raw value of a @c " ++ env.ClassName descriptor.containing_type
              ++ "\x27s @c " ++ n ++ " property, even\n")
          ++ " * if the value was not defined by the enum at the time the code was generated.\n"
          ++ " **/\n"
          ++ (RawValueGetterSignature (env.ClassName descriptor.containing_type) N ++ ";\n")
          ++ "/**\n"
          ++ (" * Sets the raw value of an @c " ++ env.ClassName descriptor.containing_type
              ++ "\x27s @c " ++ n ++ " property, allowing\n")
          ++ " * it to be set to a value that was not defined by the enum at the time the code\n"
          ++ " * was generated.\n"
          ++ " **/\n"
          ++ (RawValueSetterSignature (env.ClassName descriptor.containing_type) N ++ ";\n")
          ++ "\n" } := by
  have hC := SetEnumVariables_owning_message_class env descriptor
    (env.SingleFieldGenerator_variables descriptor)
  have hn2 := SetEnumVariables_other env descriptor
    (env.SingleFieldGenerator_variables descriptor) "name" (by decide)
  have hN2 := SetEnumVariables_other env descriptor
    (env.SingleFieldGenerator_variables descriptor) "capitalized_name" (by decide)
  rw [hn] at hn2
  rw [hN] at hN2
  simp only [EnumFieldGenerator.GenerateCFunctionDeclarations, EnumFieldGenerator.new, hopen,
    CFunctionDeclarationsFormat, Printer.Emit, Printer.Substitute, hC, hn2, hN2,
    RawValueGetterSignature, RawValueSetterSignature]
  simp [String.append_assoc]

/-- Scenario A: `status` of `Widget` with the open enum `Color` declares
`Widget_Status_RawValue` and `SetWidget_Status_RawValue`. -/
theorem open_enum_declarations_witness :
    (EnumFieldGenerator.new sampleCollaborators
        (statusField widgetProto false)).GenerateCFunctionDeclarations { out := "" }
      = some { out :=
          "/**\n"
          ++ " * Fetches the raw value of a @c Widget\x27s @c status property, even\n"
          ++ " * if the value was not defined by the enum at the time the code was generated.\n"
          ++ " **/\n"
          ++ "int32_t Widget_Status_RawValue(Widget *message);\n"
          ++ "/**\n"
          ++ " * Sets the raw value of an @c Widget\x27s @c status property, allowing\n"
          ++ " * it to be set to a value that was not defined by the enum at the time the code\n"
          ++ " * was generated.\n"
          ++ " **/\n"
          ++ "void SetWidget_Status_RawValue(Widget *message, int32_t value);\n"
          ++ "\n" } :=
  open_enum_declarations sampleCollaborators (statusField widgetProto false) { out := "" }
    "status" "Status" rfl rfl rfl

/-- C3: for a field whose enum type is open, with class name `C`, capitalized name
`N` and field number name `F`, `GenerateCFunctionImplementations` appends exactly
two function bodies and an empty line.  Each body reads the descriptor of class
`C` and looks the field up by `fieldWithNumber:F`; the getter returns
`GPBGetMessageRawEnumField(message, field)`, the setter calls
`GPBSetMessageRawEnumField(message, field, value)`.  The format refers to three
placeholders only, and `enum_verifier` is not among them. -/
theorem open_enum_implementations (env : Collaborators) (descriptor : FieldDescriptor)
    (printer : Printer) (N F : String)
    (hopen : descriptor.enum_type.is_closed = false)
    (hN : env.SingleFieldGenerator_variables descriptor "capitalized_name" = some N)
    (hF : env.SingleFieldGenerator_variables descriptor "field_number_name" = some F) :
    (EnumFieldGenerator.new env descriptor).GenerateCFunctionImplementations printer
      = some { out := printer.out
          ++ (RawValueGetterSignature (env.ClassName descriptor.containing_type) N ++ " \x7b\n")
          ++ ("  GPBDescriptor *descriptor = [" ++ env.ClassName descriptor.containing_type
              ++ " descriptor];\n")
          ++ ("  GPBFieldDescriptor *field = [descriptor fieldWithNumber:" ++ F ++ "];\n")
          ++ "  return GPBGetMessageRawEnumField(message, field);\n"
          ++ "\x7d\n"
          ++ "\n"
          ++ (RawValueSetterSignature (env.ClassName descriptor.containing_type) N ++ " \x7b\n")
          ++ ("  GPBDescriptor *descriptor = [" ++ env.ClassName descriptor.containing_type
              ++ " descriptor];\n")
          ++ ("  GPBFieldDescriptor *field = [descriptor fieldWithNumber:" ++ F ++ "];\n")
          ++ "  GPBSetMessageRawEnumField(message, field, value);\n"
          ++ "\x7d\n"
          ++ "\n" } ∧
    (FormatKeys CFunctionImplementationsFormat).dedup
      = ["capitalized_name", "owning_message_class", "field_number_name"] ∧
    "enum_verifier" ∉ FormatKeys CFunctionImplementationsFormat := by
  have hC := SetEnumVariables_owning_message_class env descriptor
    (env.SingleFieldGenerator_variables descriptor)
  have hN2 := SetEnumVariables_other env descriptor
    (env.SingleFieldGenerator_variables descriptor) "capitalized_name" (by decide)
  have hF2 := SetEnumVariables_other env descriptor
    (env.SingleFieldGenerator_variables descriptor) "field_number_name" (by decide)
  rw [hN] at hN2
  rw [hF] at hF2
  refine ⟨?_, by decide, by decide⟩
  simp only [EnumFieldGenerator.GenerateCFunctionImplementations, EnumFieldGenerator.new,
    hopen, CFunctionImplementationsFormat, Printer.Emit, Printer.Substitute, hC, hN2, hF2,
    RawValueGetterSignature, RawValueSetterSignature]
  simp [String.append_assoc]

/-- Scenario A: the two bodies emitted for `status` of `Widget`. -/
theorem open_enum_implementations_witness :
    (EnumFieldGenerator.new sampleCollaborators
        (statusField widgetProto false)).GenerateCFunctionImplementations { out := "" }
      = some { out :=
          "int32_t Widget_Status_RawValue(Widget *message) \x7b\n"
          ++ "  GPBDescriptor *descriptor = [Widget descriptor];\n"
          ++ "  GPBFieldDescriptor *field = [descriptor fieldWithNumber:Widget_FieldNumber_Status];\n"
          ++ "  return GPBGetMessageRawEnumField(message, field);\n"
          ++ "\x7d\n"
          ++ "\n"
          ++ "void SetWidget_Status_RawValue(Widget *message, int32_t value) \x7b\n"
          ++ "  GPBDescriptor *descriptor = [Widget descriptor];\n"
          ++ "  GPBFieldDescriptor *field = [descriptor fieldWithNumber:Widget_FieldNumber_Status];\n"
          ++ "  GPBSetMessageRawEnumField(message, field, value);\n"
          ++ "\x7d\n"
          ++ "\n" } :=
  (open_enum_implementations sampleCollaborators (statusField widgetProto false) { out := "" }
    "Status" "Widget_FieldNumber_Status" rfl rfl rfl).1

/-! ## Forward declarations and needed files -/

/-- C4: `EnumFieldGenerator::DetermineForwardDeclarations` returns the base result
with the entry `GPB_ENUM_FWD_DECLARE(EnumName(enum));` inserted when external
types are requested, the file of the field differs from the file of the enum and
the file of the enum is not bundled; in every other case it returns the base
result itself.  So, when the base result does not hold that entry already, the
entry is in the result if and only if the three conditions hold. -/
theorem enum_forward_declaration (env : Collaborators) (descriptor : FieldDescriptor)
    (fwd_decls : Finset String) (include_external_types : Bool) :
    ∃ result,
      (EnumFieldGenerator.new env descriptor).DetermineForwardDeclarations env fwd_decls
          include_external_types = some result ∧
      result =
        (if include_external_types = true ∧ descriptor.file ≠ descriptor.enum_type.file ∧
            env.IsProtobufLibraryBundledProtoFile descriptor.enum_type.file = false then
          insert ("GPB_ENUM_FWD_DECLARE(" ++ env.EnumName descriptor.enum_type ++ ");")
            (env.SingleFieldGenerator_DetermineForwardDeclarations descriptor fwd_decls
              include_external_types)
        else
          env.SingleFieldGenerator_DetermineForwardDeclarations descriptor fwd_decls
            include_external_types) ∧
      ((("GPB_ENUM_FWD_DECLARE(" ++ env.EnumName descriptor.enum_type ++ ");") ∉
          env.SingleFieldGenerator_DetermineForwardDeclarations descriptor fwd_decls
            include_external_types) →
        ((("GPB_ENUM_FWD_DECLARE(" ++ env.EnumName descriptor.enum_type ++ ");") ∈ result) ↔
          (include_external_types = true ∧ descriptor.file ≠ descriptor.enum_type.file ∧
            env.IsProtobufLibraryBundledProtoFile descriptor.enum_type.file = false))) := by
  have hst : variable_ (EnumFieldGenerator.new env descriptor).variables_ "storage_type"
      = some (env.EnumName descriptor.enum_type) :=
    SetEnumVariables_storage_type env descriptor _
  have hd : (EnumFieldGenerator.new env descriptor).descriptor_ = descriptor := rfl
  by_cases hc : include_external_types = true ∧ descriptor.file ≠ descriptor.enum_type.file ∧
      env.IsProtobufLibraryBundledProtoFile descriptor.enum_type.file = false
  · have hc2 : include_external_types = true ∧ descriptor.file ≠ descriptor.enum_type.file ∧
        (!env.IsProtobufLibraryBundledProtoFile descriptor.enum_type.file) = true := by
      simpa using hc
    refine ⟨_, ?_, rfl, ?_⟩
    · unfold EnumFieldGenerator.DetermineForwardDeclarations
      rw [hst, hd]
      simp only [if_pos hc2, if_pos hc]
    · intro _
      simp only [if_pos hc, Finset.mem_insert, true_or, true_iff]
      exact hc
  · have hc2 : ¬ (include_external_types = true ∧ descriptor.file ≠ descriptor.enum_type.file ∧
        (!env.IsProtobufLibraryBundledProtoFile descriptor.enum_type.file) = true) := by
      simpa using hc
    refine ⟨_, ?_, rfl, ?_⟩
    · unfold EnumFieldGenerator.DetermineForwardDeclarations
      rw [hd]
      simp only [if_neg hc2, if_neg hc]
    · intro hnot
      simp only [if_neg hc, iff_false, hc]
      exact hnot

/-- Scenario D: `status` with `Color` declared in `colors.proto`, external types
requested, gains `GPB_ENUM_FWD_DECLARE(Color);`; with `Color` in the file of the
field, or without external types, the set stays as it was. -/
theorem enum_forward_declaration_witness :
    (EnumFieldGenerator.new sampleCollaborators
        (statusField colorsProto false)).DetermineForwardDeclarations sampleCollaborators
        {"@class Gadget;"} true
      = some {"@class Gadget;", "GPB_ENUM_FWD_DECLARE(Color);"} ∧
    (EnumFieldGenerator.new sampleCollaborators
        (statusField colorsProto false)).DetermineForwardDeclarations sampleCollaborators
        {"@class Gadget;"} false
      = some {"@class Gadget;"} ∧
    (EnumFieldGenerator.new sampleCollaborators
        (statusField widgetProto false)).DetermineForwardDeclarations sampleCollaborators
        {"@class Gadget;"} true
      = some {"@class Gadget;"} := by
  obtain ⟨r1, h1, e1, -⟩ := enum_forward_declaration sampleCollaborators
    (statusField colorsProto false) {"@class Gadget;"} true
  obtain ⟨r2, h2, e2, -⟩ := enum_forward_declaration sampleCollaborators
    (statusField colorsProto false) {"@class Gadget;"} false
  obtain ⟨r3, h3, e3, -⟩ := enum_forward_declaration sampleCollaborators
    (statusField widgetProto false) {"@class Gadget;"} true
  rw [h1, h2, h3, e1, e2, e3]
  simp [statusField, colorEnum, sampleCollaborators, colorsProto, widgetProto,
    Finset.pair_comm]

/-- C5: `DetermineNeededFiles` returns `deps ∪ {file of the enum}` when the file of
the field differs from the file of the enum and `deps` otherwise; the singular and
the repeated generator of one field return the same set; and a second call
changes nothing. -/
theorem needed_files (env : Collaborators) (descriptor : FieldDescriptor)
    (deps : Finset FileDescriptor) :
    (EnumFieldGenerator.new env descriptor).DetermineNeededFiles deps
      = (if descriptor.file ≠ descriptor.enum_type.file then
          deps ∪ {descriptor.enum_type.file} else deps) ∧
    (RepeatedEnumFieldGenerator.new env descriptor).DetermineNeededFiles deps
      = (EnumFieldGenerator.new env descriptor).DetermineNeededFiles deps ∧
    (EnumFieldGenerator.new env descriptor).DetermineNeededFiles
        ((EnumFieldGenerator.new env descriptor).DetermineNeededFiles deps)
      = (EnumFieldGenerator.new env descriptor).DetermineNeededFiles deps ∧
    (RepeatedEnumFieldGenerator.new env descriptor).DetermineNeededFiles
        ((RepeatedEnumFieldGenerator.new env descriptor).DetermineNeededFiles deps)
      = (RepeatedEnumFieldGenerator.new env descriptor).DetermineNeededFiles deps := by
  simp only [EnumFieldGenerator.DetermineNeededFiles,
    RepeatedEnumFieldGenerator.DetermineNeededFiles, EnumFieldGenerator.new,
    RepeatedEnumFieldGenerator.new]
  by_cases h : descriptor.file = descriptor.enum_type.file
  · simp [h]
  · simp [h, Finset.union_comm, Finset.insert_eq]

/-- Scenario C and A: `colors` with `Color` in `colors.proto` adds `colors.proto`
once; `status` with `Color` in `widget.proto` adds nothing. -/
theorem needed_files_witness :
    (RepeatedEnumFieldGenerator.new sampleCollaborators
        (colorsField colorsProto false)).DetermineNeededFiles ∅ = {colorsProto} ∧
    (EnumFieldGenerator.new sampleCollaborators
        (statusField colorsProto false)).DetermineNeededFiles {colorsProto} = {colorsProto} ∧
    (EnumFieldGenerator.new sampleCollaborators
        (statusField widgetProto false)).DetermineNeededFiles ∅ = ∅ := by
  have h1 := needed_files sampleCollaborators (colorsField colorsProto false) ∅
  have h2 := needed_files sampleCollaborators (statusField colorsProto false) {colorsProto}
  have h3 := needed_files sampleCollaborators (statusField widgetProto false) ∅
  refine ⟨?_, ?_, ?_⟩
  · rw [h1.2.1, h1.1]; decide
  · rw [h2.1]; decide
  · rw [h3.1]; decide

/-! ## The constructed table -/

/-- C6, as the source has it: a generator built by the singular constructor from a
singular field has `property_type` equal to `"enum " ++ EnumName(enum)` when the
file of the field differs from the file of the enum, and otherwise the entry is
the one the base constructor left; so, unless the base constructor wrote that very
spelling, the entry has the qualified spelling if and only if the two files
differ.  A generator built by the repeated constructor from a repeated field
always keeps the entry the base constructor left, also when the files differ. -/
theorem property_type_after_construction (env : Collaborators)
    (single repeated : FieldDescriptor)
    (hsingle : single.is_repeated = false) (hrepeated : repeated.is_repeated = true) :
    (EnumFieldGenerator.new env single).variables_ "property_type"
      = (if single.file ≠ single.enum_type.file then
          some ("enum " ++ env.EnumName single.enum_type)
        else env.SingleFieldGenerator_variables single "property_type") ∧
    (env.SingleFieldGenerator_variables single "property_type"
        ≠ some ("enum " ++ env.EnumName single.enum_type) →
      ((EnumFieldGenerator.new env single).variables_ "property_type"
          = some ("enum " ++ env.EnumName single.enum_type)
        ↔ single.file ≠ single.enum_type.file)) ∧
    (RepeatedEnumFieldGenerator.new env repeated).variables_ "property_type"
      = env.RepeatedFieldGenerator_variables repeated "property_type" := by
  have h1 : (EnumFieldGenerator.new env single).variables_ "property_type"
      = (if single.file ≠ single.enum_type.file then
          some ("enum " ++ env.EnumName single.enum_type)
        else env.SingleFieldGenerator_variables single "property_type") := by
    show SetEnumVariables env single _ "property_type" = _
    rw [SetEnumVariables_property_type]
    simp [hsingle]
  refine ⟨h1, ?_, ?_⟩
  · intro hbase
    rw [h1]
    by_cases hf : single.file = single.enum_type.file
    · simp [hf, hbase]
    · simp [hf]
  · show (SetEnumVariables env repeated _).set "array_storage_type" "GPBEnumArray"
      "property_type" = _
    rw [Vars.set_other _ _ _ _ (by decide), SetEnumVariables_property_type]
    simp [hrepeated]

/-- The singular `status` with `Color` in `colors.proto` gets `enum Color`, with
`Color` in `widget.proto` it gets no entry; the repeated `colors` gets none. -/
theorem property_type_after_construction_witness :
    (EnumFieldGenerator.new sampleCollaborators (statusField colorsProto false)).variables_
        "property_type" = some "enum Color" ∧
    (EnumFieldGenerator.new sampleCollaborators (statusField widgetProto false)).variables_
        "property_type" = none ∧
    (RepeatedEnumFieldGenerator.new sampleCollaborators
        (colorsField colorsProto false)).variables_ "property_type" = none :=
  ⟨(property_type_after_construction sampleCollaborators (statusField colorsProto false)
      (colorsField colorsProto false) rfl rfl).1,
   (property_type_after_construction sampleCollaborators (statusField widgetProto false)
      (colorsField colorsProto false) rfl rfl).1,
   (property_type_after_construction sampleCollaborators (statusField colorsProto false)
      (colorsField colorsProto false) rfl rfl).2.2⟩

/-- C6 as stated fails for the repeated constructor: the repeated field `colors` of
`Widget` (in `widget.proto`) with `Color` in `colors.proto` has differing files,
yet `property_type` is not `enum Color`; it is absent, as the base left it. -/
theorem property_type_repeated_counterexample :
    (colorsField colorsProto false).is_repeated = true ∧
    ¬ ((RepeatedEnumFieldGenerator.new sampleCollaborators
          (colorsField colorsProto false)).variables_ "property_type"
        = some ("enum " ++ sampleCollaborators.EnumName (colorsField colorsProto false).enum_type)
      ↔ (colorsField colorsProto false).file ≠ (colorsField colorsProto false).enum_type.file) ∧
    (RepeatedEnumFieldGenerator.new sampleCollaborators
        (colorsField colorsProto false)).variables_ "property_type" = none := by
  decide

/-- C7: the forward-declaration computation of a repeated generator is the
inherited base computation: the result equals the base result for every field,
set and flag, so the entry `GPB_ENUM_FWD_DECLARE(EnumName(enum));` is in the
result only if the base put it there, also when the enum is declared in another,
non-bundled file and external types are requested. -/
theorem repeated_enum_no_forward_declaration (env : Collaborators)
    (descriptor : FieldDescriptor) (fwd_decls : Finset String)
    (include_external_types : Bool) :
    (RepeatedEnumFieldGenerator.new env descriptor).DetermineForwardDeclarations env
        fwd_decls include_external_types
      = env.RepeatedFieldGenerator_DetermineForwardDeclarations descriptor fwd_decls
          include_external_types ∧
    (("GPB_ENUM_FWD_DECLARE(" ++ env.EnumName descriptor.enum_type ++ ");") ∈
        (RepeatedEnumFieldGenerator.new env descriptor).DetermineForwardDeclarations env
          fwd_decls include_external_types
      ↔ ("GPB_ENUM_FWD_DECLARE(" ++ env.EnumName descriptor.enum_type ++ ");") ∈
        env.RepeatedFieldGenerator_DetermineForwardDeclarations descriptor fwd_decls
          include_external_types) :=
  ⟨rfl, Iff.rfl⟩

/-- Scenario C: the repeated `colors` of `Widget` with `Color` in `colors.proto`
adds no forward declaration, and the dependency set gains `colors.proto`. -/
theorem repeated_enum_no_forward_declaration_witness :
    (RepeatedEnumFieldGenerator.new sampleCollaborators
        (colorsField colorsProto false)).DetermineForwardDeclarations sampleCollaborators
        ∅ true = ∅ ∧
    (RepeatedEnumFieldGenerator.new sampleCollaborators
        (colorsField colorsProto false)).DetermineNeededFiles ∅ = {colorsProto} :=
  ⟨(repeated_enum_no_forward_declaration sampleCollaborators (colorsField colorsProto false)
      ∅ true).1, by decide⟩

/-- C8: after construction by either constructor, `storage_type` is
`EnumName(enum)`, `enum_verifier` is that name followed by `_IsValidValue`,
`enum_desc_func` is that name followed by `_EnumDescriptor`, and
`owning_message_class` is `ClassName(containing message)`.  Hence a second field
of the same enum has the same three enum entries, and a second field of the same
message has the same `owning_message_class`. -/
theorem enum_entries_after_construction (env : Collaborators)
    (descriptor : FieldDescriptor) :
    ((EnumFieldGenerator.new env descriptor).variables_ "storage_type"
        = some (env.EnumName descriptor.enum_type) ∧
      (EnumFieldGenerator.new env descriptor).variables_ "enum_verifier"
        = some (env.EnumName descriptor.enum_type ++ "_IsValidValue") ∧
      (EnumFieldGenerator.new env descriptor).variables_ "enum_desc_func"
        = some (env.EnumName descriptor.enum_type ++ "_EnumDescriptor") ∧
      (EnumFieldGenerator.new env descriptor).variables_ "owning_message_class"
        = some (env.ClassName descriptor.containing_type)) ∧
    ((RepeatedEnumFieldGenerator.new env descriptor).variables_ "storage_type"
        = some (env.EnumName descriptor.enum_type) ∧
      (RepeatedEnumFieldGenerator.new env descriptor).variables_ "enum_verifier"
        = some (env.EnumName descriptor.enum_type ++ "_IsValidValue") ∧
      (RepeatedEnumFieldGenerator.new env descriptor).variables_ "enum_desc_func"
        = some (env.EnumName descriptor.enum_type ++ "_EnumDescriptor") ∧
      (RepeatedEnumFieldGenerator.new env descriptor).variables_ "owning_message_class"
        = some (env.ClassName descriptor.containing_type)) ∧
    (∀ other : FieldDescriptor, other.enum_type = descriptor.enum_type →
      (EnumFieldGenerator.new env other).variables_ "storage_type"
        = (EnumFieldGenerator.new env descriptor).variables_ "storage_type" ∧
      (EnumFieldGenerator.new env other).variables_ "enum_verifier"
        = (EnumFieldGenerator.new env descriptor).variables_ "enum_verifier" ∧
      (EnumFieldGenerator.new env other).variables_ "enum_desc_func"
        = (EnumFieldGenerator.new env descriptor).variables_ "enum_desc_func") ∧
    (∀ other : FieldDescriptor, other.containing_type = descriptor.containing_type →
      (EnumFieldGenerator.new env other).variables_ "owning_message_class"
        = (EnumFieldGenerator.new env descriptor).variables_ "owning_message_class") := by
  have hs : ∀ d : FieldDescriptor, ∀ k : String,
      (EnumFieldGenerator.new env d).variables_ k
        = SetEnumVariables env d (env.SingleFieldGenerator_variables d) k := fun _ _ => rfl
  have hr : ∀ k : String, k ≠ "array_storage_type" →
      (RepeatedEnumFieldGenerator.new env descriptor).variables_ k
        = SetEnumVariables env descriptor (env.RepeatedFieldGenerator_variables descriptor) k :=
    fun k hk => Vars.set_other _ _ _ k hk
  refine ⟨⟨?_, ?_, ?_, ?_⟩, ⟨?_, ?_, ?_, ?_⟩, ?_, ?_⟩
  · rw [hs, SetEnumVariables_storage_type]
  · rw [hs, SetEnumVariables_enum_verifier]
  · rw [hs, SetEnumVariables_enum_desc_func]
  · rw [hs, SetEnumVariables_owning_message_class]
  · rw [hr _ (by decide), SetEnumVariables_storage_type]
  · rw [hr _ (by decide), SetEnumVariables_enum_verifier]
  · rw [hr _ (by decide), SetEnumVariables_enum_desc_func]
  · rw [hr _ (by decide), SetEnumVariables_owning_message_class]
  · intro other h
    simp only [hs, SetEnumVariables_storage_type, SetEnumVariables_enum_verifier,
      SetEnumVariables_enum_desc_func, h, and_self]
  · intro other h
    simp only [hs, SetEnumVariables_owning_message_class, h]

/-- The entries of `status` and of `colors`, two fields of `Widget` and of
`Color`. -/
theorem enum_entries_after_construction_witness :
    (EnumFieldGenerator.new sampleCollaborators (statusField colorsProto false)).variables_
        "storage_type" = some "Color" ∧
    (EnumFieldGenerator.new sampleCollaborators (statusField colorsProto false)).variables_
        "enum_verifier" = some "Color_IsValidValue" ∧
    (EnumFieldGenerator.new sampleCollaborators (statusField colorsProto false)).variables_
        "enum_desc_func" = some "Color_EnumDescriptor" ∧
    (RepeatedEnumFieldGenerator.new sampleCollaborators
        (colorsField colorsProto false)).variables_ "owning_message_class" = some "Widget" ∧
    (EnumFieldGenerator.new sampleCollaborators (colorsField colorsProto false)).variables_
        "owning_message_class"
      = (EnumFieldGenerator.new sampleCollaborators (statusField colorsProto false)).variables_
        "owning_message_class" :=
  have h := enum_entries_after_construction sampleCollaborators (statusField colorsProto false)
  have h2 := enum_entries_after_construction sampleCollaborators (colorsField colorsProto false)
  ⟨h.1.1, h.1.2.1, h.1.2.2.1, h2.2.1.2.2.2, h.2.2.2 (colorsField colorsProto false) rfl⟩

/-- C9: after construction by the repeated constructor, `array_storage_type` is
the constant `GPBEnumArray`, whatever the field, its enum and the files are; the
singular constructor leaves `array_storage_type` as the base constructor left
it. -/
theorem array_storage_type_after_construction (env : Collaborators)
    (descriptor : FieldDescriptor) :
    (RepeatedEnumFieldGenerator.new env descriptor).variables_ "array_storage_type"
      = some "GPBEnumArray" ∧
    (EnumFieldGenerator.new env descriptor).variables_ "array_storage_type"
      = env.SingleFieldGenerator_variables descriptor "array_storage_type" :=
  ⟨Vars.set_same
      (SetEnumVariables env descriptor (env.RepeatedFieldGenerator_variables descriptor))
      "array_storage_type" "GPBEnumArray",
   SetEnumVariables_other env descriptor _ "array_storage_type" (by decide)⟩

/-- The repeated `colors` has `GPBEnumArray`; the singular `status` has no
`array_storage_type`. -/
theorem array_storage_type_after_construction_witness :
    (RepeatedEnumFieldGenerator.new sampleCollaborators
        (colorsField colorsProto true)).variables_ "array_storage_type" = some "GPBEnumArray" ∧
    (EnumFieldGenerator.new sampleCollaborators (statusField widgetProto false)).variables_
        "array_storage_type" = none :=
  ⟨(array_storage_type_after_construction sampleCollaborators
      (colorsField colorsProto true)).1,
   (array_storage_type_after_construction sampleCollaborators
      (statusField widgetProto false)).2⟩

/-! ## The table entries read back -/

/-- The result of `EnumFieldGenerator::DetermineForwardDeclarations` on a
constructed generator, in closed form. -/
theorem DetermineForwardDeclarations_new (env : Collaborators) (descriptor : FieldDescriptor)
    (fwd_decls : Finset String) (include_external_types : Bool) :
    (EnumFieldGenerator.new env descriptor).DetermineForwardDeclarations env fwd_decls
        include_external_types
      = some (if include_external_types = true ∧
            descriptor.file ≠ descriptor.enum_type.file ∧
            env.IsProtobufLibraryBundledProtoFile descriptor.enum_type.file = false then
          insert ("GPB_ENUM_FWD_DECLARE(" ++ env.EnumName descriptor.enum_type ++ ");")
            (env.SingleFieldGenerator_DetermineForwardDeclarations descriptor fwd_decls
              include_external_types)
        else
          env.SingleFieldGenerator_DetermineForwardDeclarations descriptor fwd_decls
            include_external_types) := by
  have hst : variable_ (EnumFieldGenerator.new env descriptor).variables_ "storage_type"
      = some (env.EnumName descriptor.enum_type) :=
    SetEnumVariables_storage_type env descriptor _
  have hd : (EnumFieldGenerator.new env descriptor).descriptor_ = descriptor := rfl
  unfold EnumFieldGenerator.DetermineForwardDeclarations
  rw [hst, hd]
  by_cases hc : include_external_types = true ∧ descriptor.file ≠ descriptor.enum_type.file ∧
      env.IsProtobufLibraryBundledProtoFile descriptor.enum_type.file = false
  · have hc2 : include_external_types = true ∧ descriptor.file ≠ descriptor.enum_type.file ∧
        (!env.IsProtobufLibraryBundledProtoFile descriptor.enum_type.file) = true := by
      simpa using hc
    simp only [if_pos hc2, if_pos hc]
  · have hc2 : ¬ (include_external_types = true ∧ descriptor.file ≠ descriptor.enum_type.file ∧
        (!env.IsProtobufLibraryBundledProtoFile descriptor.enum_type.file) = true) := by
      simpa using hc
    simp only [if_neg hc2, if_neg hc]

/-- C12: `SetEnumVariables` gives `property_type` the value
`"enum " ++ EnumName(enum)`, whatever the incoming table holds, when the field is
not repeated and its file differs from the file of the enum; in every other case
the entry of the result is the entry of the incoming table.  So the entry is
written if and only if the field is not repeated and the two files differ. -/
theorem SetEnumVariables_writes_property_type (env : Collaborators)
    (descriptor : FieldDescriptor) :
    ((descriptor.is_repeated = false ∧ descriptor.file ≠ descriptor.enum_type.file) →
      ∀ vars : Vars, SetEnumVariables env descriptor vars "property_type"
        = some ("enum " ++ env.EnumName descriptor.enum_type)) ∧
    (¬ (descriptor.is_repeated = false ∧ descriptor.file ≠ descriptor.enum_type.file) →
      ∀ vars : Vars, SetEnumVariables env descriptor vars "property_type"
        = vars "property_type") ∧
    ((∀ vars : Vars, SetEnumVariables env descriptor vars "property_type"
        = some ("enum " ++ env.EnumName descriptor.enum_type))
      ↔ (descriptor.is_repeated = false ∧ descriptor.file ≠ descriptor.enum_type.file)) := by
  have hyes : (descriptor.is_repeated = false ∧ descriptor.file ≠ descriptor.enum_type.file) →
      ∀ vars : Vars, SetEnumVariables env descriptor vars "property_type"
        = some ("enum " ++ env.EnumName descriptor.enum_type) := by
    intro h vars
    rw [SetEnumVariables_property_type, if_pos h]
  have hno : ¬ (descriptor.is_repeated = false ∧ descriptor.file ≠ descriptor.enum_type.file) →
      ∀ vars : Vars, SetEnumVariables env descriptor vars "property_type"
        = vars "property_type" := by
    intro h vars
    rw [SetEnumVariables_property_type, if_neg h]
  refine ⟨hyes, hno, ⟨?_, hyes⟩⟩
  intro hall
  by_contra hc
  have h1 := hall (fun _ => none)
  rw [hno hc] at h1
  exact absurd h1 (by simp)

/-- The entry `property_type` after `SetEnumVariables` on a table that holds
`Color`: overwritten for `status` across files, kept for `status` in one file
and for the repeated `colors`. -/
theorem SetEnumVariables_writes_property_type_witness :
    SetEnumVariables sampleCollaborators (statusField colorsProto false)
        ((sampleBaseVariables (statusField colorsProto false)).set "property_type" "Color")
        "property_type" = some "enum Color" ∧
    SetEnumVariables sampleCollaborators (statusField widgetProto false)
        ((sampleBaseVariables (statusField widgetProto false)).set "property_type" "Color")
        "property_type" = some "Color" ∧
    SetEnumVariables sampleCollaborators (colorsField colorsProto false)
        ((sampleBaseVariables (colorsField colorsProto false)).set "property_type" "Color")
        "property_type" = some "Color" :=
  ⟨(SetEnumVariables_writes_property_type sampleCollaborators
      (statusField colorsProto false)).1 (by decide) _,
   (SetEnumVariables_writes_property_type sampleCollaborators
      (statusField widgetProto false)).2.1 (by decide) _,
   (SetEnumVariables_writes_property_type sampleCollaborators
      (colorsField colorsProto false)).2.1 (by decide) _⟩

/-- C13: for every instance the constructor produces, the lookup of
`storage_type` succeeds with `EnumName(enum)`, also when the base constructor had
left another value under that key; so `DetermineForwardDeclarations` always
returns a set, and when its three conditions hold that set contains
`GPB_ENUM_FWD_DECLARE(EnumName(enum));`. -/
theorem storage_type_lookup_never_fails (env : Collaborators) (descriptor : FieldDescriptor)
    (fwd_decls : Finset String) (include_external_types : Bool) :
    variable_ (EnumFieldGenerator.new env descriptor).variables_ "storage_type"
      = some (env.EnumName descriptor.enum_type) ∧
    (EnumFieldGenerator.new env descriptor).DetermineForwardDeclarations env fwd_decls
        include_external_types ≠ none ∧
    ((include_external_types = true ∧ descriptor.file ≠ descriptor.enum_type.file ∧
        env.IsProtobufLibraryBundledProtoFile descriptor.enum_type.file = false) →
      ∃ result,
        (EnumFieldGenerator.new env descriptor).DetermineForwardDeclarations env fwd_decls
          include_external_types = some result ∧
        ("GPB_ENUM_FWD_DECLARE(" ++ env.EnumName descriptor.enum_type ++ ");") ∈ result) := by
  refine ⟨SetEnumVariables_storage_type env descriptor _, ?_, ?_⟩
  · rw [DetermineForwardDeclarations_new]
    simp
  · intro hc
    refine ⟨_, DetermineForwardDeclarations_new env descriptor fwd_decls
      include_external_types, ?_⟩
    rw [if_pos hc]
    exact Finset.mem_insert_self _ _

/-- With a base table that already holds `storage_type = Stale`, the lookup gives
`Color` and the entry added names `Color`. -/
theorem storage_type_lookup_never_fails_witness :
    staleCollaborators.SingleFieldGenerator_variables (statusField colorsProto false)
        "storage_type" = some "Stale" ∧
    variable_ (EnumFieldGenerator.new staleCollaborators
        (statusField colorsProto false)).variables_ "storage_type" = some "Color" ∧
    ∃ result,
      (EnumFieldGenerator.new staleCollaborators
          (statusField colorsProto false)).DetermineForwardDeclarations staleCollaborators
          ∅ true = some result ∧
      "GPB_ENUM_FWD_DECLARE(Color);" ∈ result :=
  have h := storage_type_lookup_never_fails staleCollaborators (statusField colorsProto false)
    ∅ true
  ⟨by decide, h.1, h.2.2 (by decide)⟩

/-! ## The array comment -/

/-- C14: for a repeated generator whose base table holds `name = n`,
`EmitArrayComment` appends exactly the one line `// |n| contains |EnumName(E)|`,
whatever the openness and the file of the enum are.  The method receives the
printer alone: it has no forward-declaration set and no dependency set to
change. -/
theorem array_comment_line (env : Collaborators) (descriptor : FieldDescriptor)
    (printer : Printer) (n : String)
    (hn : env.RepeatedFieldGenerator_variables descriptor "name" = some n) :
    (RepeatedEnumFieldGenerator.new env descriptor).EmitArrayComment printer
      = some { out := printer.out
          ++ ("// |" ++ n ++ "| contains |" ++ env.EnumName descriptor.enum_type ++ "|")
          ++ "\n" } := by
  have hname : (RepeatedEnumFieldGenerator.new env descriptor).variables_ "name" = some n := by
    show (SetEnumVariables env descriptor _).set "array_storage_type" "GPBEnumArray" "name" = _
    rw [Vars.set_other _ _ _ _ (by decide), SetEnumVariables_other _ _ _ _ (by decide), hn]
  have hst : (RepeatedEnumFieldGenerator.new env descriptor).variables_ "storage_type"
      = some (env.EnumName descriptor.enum_type) := by
    show (SetEnumVariables env descriptor _).set "array_storage_type" "GPBEnumArray"
      "storage_type" = _
    rw [Vars.set_other _ _ _ _ (by decide), SetEnumVariables_storage_type]
  simp only [RepeatedEnumFieldGenerator.EmitArrayComment, ArrayCommentFormat, Printer.Emit,
    Printer.Substitute, hname, hst]
  simp [String.append_assoc]

/-- The repeated `colors` of enum `Color`: one comment line. -/
theorem array_comment_line_witness :
    (RepeatedEnumFieldGenerator.new sampleCollaborators
        (colorsField colorsProto true)).EmitArrayComment { out := "" }
      = some { out := "// |colors| contains |Color|\n" } :=
  array_comment_line sampleCollaborators (colorsField colorsProto true) { out := "" }
    "colors" rfl

/-! ## Declarations against implementations -/

/-- Appending to a text gives the text back only when nothing is appended. -/
theorem append_eq_self_imp_empty (s t : String) (h : s ++ t = s) : t = "" := by
  have hlen := congrArg String.length h
  rw [String.length_append] at hlen
  have h0 : t.length = 0 := by omega
  cases t with
  | mk data =>
    have hdata : data = [] := List.length_eq_zero.mp h0
    rw [hdata]

/-- A text that ends with a non-empty one is not empty. -/
theorem append_ne_empty (s t : String) (h : 0 < t.length) : s ++ t ≠ "" := by
  intro he
  have hlen := congrArg String.length he
  rw [String.length_append] at hlen
  have h0 : ("" : String).length = 0 := rfl
  omega

/-- The text `GenerateCFunctionDeclarations` writes for an open enum, for a
generator whose table holds the three entries the format reads. -/
theorem GenerateCFunctionDeclarations_open (g : EnumFieldGenerator) (printer : Printer)
    (C n N : String) (hopen : g.descriptor_.enum_type.is_closed = false)
    (hC : g.variables_ "owning_message_class" = some C)
    (hn : g.variables_ "name" = some n)
    (hN : g.variables_ "capitalized_name" = some N) :
    g.GenerateCFunctionDeclarations printer
      = some { out := printer.out
          ++ ("/**\n"
          ++ (" * Fetches the raw value of a @c " ++ C ++ "\x27s @c " ++ n ++ " property, even\n")
          ++ " * if the value was not defined by the enum at the time the code was generated.\n"
          ++ " **/\n"
          ++ (RawValueGetterSignature C N ++ ";\n")
          ++ "/**\n"
          ++ (" * Sets the raw value of an @c " ++ C ++ "\x27s @c " ++ n ++ " property, allowing\n")
          ++ " * it to be set to a value that was not defined by the enum at the time the code\n"
          ++ " * was generated.\n"
          ++ " **/\n"
          ++ (RawValueSetterSignature C N ++ ";\n")
          ++ "\n") } := by
  simp only [EnumFieldGenerator.GenerateCFunctionDeclarations, hopen,
    CFunctionDeclarationsFormat, Printer.Emit, Printer.Substitute, hC, hn, hN,
    RawValueGetterSignature, RawValueSetterSignature]
  simp [String.append_assoc]

/-- The text `GenerateCFunctionImplementations` writes for an open enum, for a
generator whose table holds the three entries the format reads. -/
theorem GenerateCFunctionImplementations_open (g : EnumFieldGenerator) (printer : Printer)
    (C N F : String) (hopen : g.descriptor_.enum_type.is_closed = false)
    (hC : g.variables_ "owning_message_class" = some C)
    (hN : g.variables_ "capitalized_name" = some N)
    (hF : g.variables_ "field_number_name" = some F) :
    g.GenerateCFunctionImplementations printer
      = some { out := printer.out
          ++ ((RawValueGetterSignature C N ++ " \x7b\n")
          ++ ("  GPBDescriptor *descriptor = [" ++ C ++ " descriptor];\n")
          ++ ("  GPBFieldDescriptor *field = [descriptor fieldWithNumber:" ++ F ++ "];\n")
          ++ "  return GPBGetMessageRawEnumField(message, field);\n"
          ++ "\x7d\n"
          ++ "\n"
          ++ (RawValueSetterSignature C N ++ " \x7b\n")
          ++ ("  GPBDescriptor *descriptor = [" ++ C ++ " descriptor];\n")
          ++ ("  GPBFieldDescriptor *field = [descriptor fieldWithNumber:" ++ F ++ "];\n")
          ++ "  GPBSetMessageRawEnumField(message, field, value);\n"
          ++ "\x7d\n"
          ++ "\n") } := by
  simp only [EnumFieldGenerator.GenerateCFunctionImplementations, hopen,
    CFunctionImplementationsFormat, Printer.Emit, Printer.Substitute, hC, hN, hF,
    RawValueGetterSignature, RawValueSetterSignature]
  simp [String.append_assoc]

/-- C15: for a field whose base table holds `name`, `capitalized_name` and
`field_number_name`, the declaration pass appends a non-empty text if and only if
the enum is open, and so does the implementation pass.  When the enum is open,
the two headers that open the bodies of the implementation text are the two
signatures of the declaration text, character for character: the getter
signature is followed by `;` in one and by the opening brace in the other, and
the same holds for the setter signature. -/
theorem declarations_match_implementations (env : Collaborators)
    (descriptor : FieldDescriptor) (printer : Printer) (n N F : String)
    (hn : env.SingleFieldGenerator_variables descriptor "name" = some n)
    (hN : env.SingleFieldGenerator_variables descriptor "capitalized_name" = some N)
    (hF : env.SingleFieldGenerator_variables descriptor "field_number_name" = some F) :
    ((∃ text, text ≠ "" ∧
        (EnumFieldGenerator.new env descriptor).GenerateCFunctionDeclarations printer
          = some { out := printer.out ++ text })
      ↔ descriptor.enum_type.is_closed = false) ∧
    ((∃ text, text ≠ "" ∧
        (EnumFieldGenerator.new env descriptor).GenerateCFunctionImplementations printer
          = some { out := printer.out ++ text })
      ↔ descriptor.enum_type.is_closed = false) ∧
    (descriptor.enum_type.is_closed = false →
      ∃ getter setter : String,
        getter = RawValueGetterSignature (env.ClassName descriptor.containing_type) N ∧
        setter = RawValueSetterSignature (env.ClassName descriptor.containing_type) N ∧
        (EnumFieldGenerator.new env descriptor).GenerateCFunctionDeclarations printer
          = some { out := printer.out
              ++ ("/**\n"
              ++ (" * Fetches the raw value of a @c "
                  ++ env.ClassName descriptor.containing_type
                  ++ "\x27s @c " ++ n ++ " property, even\n")
              ++ " * if the value was not defined by the enum at the time the code was generated.\n"
              ++ " **/\n"
              ++ (getter ++ ";\n")
              ++ "/**\n"
              ++ (" * Sets the raw value of an @c "
                  ++ env.ClassName descriptor.containing_type
                  ++ "\x27s @c " ++ n ++ " property, allowing\n")
              ++ " * it to be set to a value that was not defined by the enum at the time the code\n"
              ++ " * was generated.\n"
              ++ " **/\n"
              ++ (setter ++ ";\n")
              ++ "\n") } ∧
        (EnumFieldGenerator.new env descriptor).GenerateCFunctionImplementations printer
          = some { out := printer.out
              ++ ((getter ++ " \x7b\n")
              ++ ("  GPBDescriptor *descriptor = ["
                  ++ env.ClassName descriptor.containing_type ++ " descriptor];\n")
              ++ ("  GPBFieldDescriptor *field = [descriptor fieldWithNumber:" ++ F ++ "];\n")
              ++ "  return GPBGetMessageRawEnumField(message, field);\n"
              ++ "\x7d\n"
              ++ "\n"
              ++ (setter ++ " \x7b\n")
              ++ ("  GPBDescriptor *descriptor = ["
                  ++ env.ClassName descriptor.containing_type ++ " descriptor];\n")
              ++ ("  GPBFieldDescriptor *field = [descriptor fieldWithNumber:" ++ F ++ "];\n")
              ++ "  GPBSetMessageRawEnumField(message, field, value);\n"
              ++ "\x7d\n"
              ++ "\n") }) := by
  have hC : (EnumFieldGenerator.new env descriptor).variables_ "owning_message_class"
      = some (env.ClassName descriptor.containing_type) :=
    SetEnumVariables_owning_message_class env descriptor
      (env.SingleFieldGenerator_variables descriptor)
  have hn2 : (EnumFieldGenerator.new env descriptor).variables_ "name" = some n := by
    rw [← hn]
    exact SetEnumVariables_other env descriptor
      (env.SingleFieldGenerator_variables descriptor) "name" (by decide)
  have hN2 : (EnumFieldGenerator.new env descriptor).variables_ "capitalized_name" = some N := by
    rw [← hN]
    exact SetEnumVariables_other env descriptor
      (env.SingleFieldGenerator_variables descriptor) "capitalized_name" (by decide)
  have hF2 : (EnumFieldGenerator.new env descriptor).variables_ "field_number_name"
      = some F := by
    rw [← hF]
    exact SetEnumVariables_other env descriptor
      (env.SingleFieldGenerator_variables descriptor) "field_number_name" (by decide)
  have hclosedD : descriptor.enum_type.is_closed = true →
      (EnumFieldGenerator.new env descriptor).GenerateCFunctionDeclarations printer
        = some printer := by
    intro hc
    simp [EnumFieldGenerator.GenerateCFunctionDeclarations, EnumFieldGenerator.new, hc]
  have hclosedI : descriptor.enum_type.is_closed = true →
      (EnumFieldGenerator.new env descriptor).GenerateCFunctionImplementations printer
        = some printer := by
    intro hc
    simp [EnumFieldGenerator.GenerateCFunctionImplementations, EnumFieldGenerator.new, hc]
  have hsame : ∀ text : String, text ≠ "" →
      some printer = some ({ out := printer.out ++ text } : Printer) → False := by
    intro text hne heq
    have hout : printer.out = printer.out ++ text := congrArg Printer.out (Option.some.inj heq)
    exact hne (append_eq_self_imp_empty _ _ hout.symm)
  refine ⟨⟨?_, ?_⟩, ⟨?_, ?_⟩, ?_⟩
  · rintro ⟨text, hne, heq⟩
    cases hc : descriptor.enum_type.is_closed with
    | false => rfl
    | true =>
      rw [hclosedD hc] at heq
      exact (hsame text hne heq).elim
  · intro hopen
    exact ⟨_, append_ne_empty _ _ (by decide),
      GenerateCFunctionDeclarations_open _ printer _ n N hopen hC hn2 hN2⟩
  · rintro ⟨text, hne, heq⟩
    cases hc : descriptor.enum_type.is_closed with
    | false => rfl
    | true =>
      rw [hclosedI hc] at heq
      exact (hsame text hne heq).elim
  · intro hopen
    exact ⟨_, append_ne_empty _ _ (by decide),
      GenerateCFunctionImplementations_open _ printer _ N F hopen hC hN2 hF2⟩
  · intro hopen
    exact ⟨_, _, rfl, rfl,
      GenerateCFunctionDeclarations_open _ printer _ n N hopen hC hn2 hN2,
      GenerateCFunctionImplementations_open _ printer _ N F hopen hC hN2 hF2⟩

/-- Scenario A and B: for `status` of `Widget`, both passes write text with the
open `Color` and neither does with the closed `Color`. -/
theorem declarations_match_implementations_witness :
    (∃ text, text ≠ "" ∧
      (EnumFieldGenerator.new sampleCollaborators
          (statusField widgetProto false)).GenerateCFunctionDeclarations { out := "" }
        = some { out := "" ++ text }) ∧
    (∃ text, text ≠ "" ∧
      (EnumFieldGenerator.new sampleCollaborators
          (statusField widgetProto false)).GenerateCFunctionImplementations { out := "" }
        = some { out := "" ++ text }) ∧
    (¬ ∃ text, text ≠ "" ∧
      (EnumFieldGenerator.new sampleCollaborators
          (statusField widgetProto true)).GenerateCFunctionDeclarations { out := "" }
        = some { out := "" ++ text }) ∧
    (¬ ∃ text, text ≠ "" ∧
      (EnumFieldGenerator.new sampleCollaborators
          (statusField widgetProto true)).GenerateCFunctionImplementations { out := "" }
        = some { out := "" ++ text }) :=
  have hopen := declarations_match_implementations sampleCollaborators
    (statusField widgetProto false) { out := "" } "status" "Status"
    "Widget_FieldNumber_Status" rfl rfl rfl
  have hclosed := declarations_match_implementations sampleCollaborators
    (statusField widgetProto true) { out := "" } "status" "Status"
    "Widget_FieldNumber_Status" rfl rfl rfl
  ⟨hopen.1.mpr rfl, hopen.2.1.mpr rfl,
   fun h => Bool.noConfusion (hclosed.1.mp h),
   fun h => Bool.noConfusion (hclosed.2.1.mp h)⟩

/-! ## Forward declaration, dependency and spelling together -/

/-- C16: for a singular field, when `DetermineForwardDeclarations` contributes the
entry `GPB_ENUM_FWD_DECLARE(EnumName(enum));` (the entry is in its result and was
not in the base result), `DetermineNeededFiles` inserts the file of the enum into
any dependency set and the constructor has set `property_type` to
`"enum " ++ EnumName(enum)`. -/
theorem forward_declaration_implies_dependency (env : Collaborators)
    (descriptor : FieldDescriptor) (fwd_decls : Finset String)
    (include_external_types : Bool) (deps : Finset FileDescriptor)
    (hsingle : descriptor.is_repeated = false)
    (hcontributes : ∃ result,
      (EnumFieldGenerator.new env descriptor).DetermineForwardDeclarations env fwd_decls
        include_external_types = some result ∧
      ("GPB_ENUM_FWD_DECLARE(" ++ env.EnumName descriptor.enum_type ++ ");") ∈ result ∧
      ("GPB_ENUM_FWD_DECLARE(" ++ env.EnumName descriptor.enum_type ++ ");") ∉
        env.SingleFieldGenerator_DetermineForwardDeclarations descriptor fwd_decls
          include_external_types) :
    (EnumFieldGenerator.new env descriptor).DetermineNeededFiles deps
      = insert descriptor.enum_type.file deps ∧
    descriptor.enum_type.file ∈
      (EnumFieldGenerator.new env descriptor).DetermineNeededFiles deps ∧
    (EnumFieldGenerator.new env descriptor).variables_ "property_type"
      = some ("enum " ++ env.EnumName descriptor.enum_type) := by
  obtain ⟨result, hres, hin, hnot⟩ := hcontributes
  rw [DetermineForwardDeclarations_new] at hres
  have hfiles : descriptor.file ≠ descriptor.enum_type.file := by
    by_cases hc : include_external_types = true ∧
        descriptor.file ≠ descriptor.enum_type.file ∧
        env.IsProtobufLibraryBundledProtoFile descriptor.enum_type.file = false
    · exact hc.2.1
    · rw [if_neg hc] at hres
      have hr := Option.some.inj hres
      rw [← hr] at hin
      exact absurd hin hnot
  have hdnf : (EnumFieldGenerator.new env descriptor).DetermineNeededFiles deps
      = insert descriptor.enum_type.file deps := by
    show (if descriptor.file ≠ descriptor.enum_type.file then _ else _) = _
    rw [if_pos hfiles]
    rfl
  refine ⟨hdnf, ?_, ?_⟩
  · rw [hdnf]
    exact Finset.mem_insert_self _ _
  · show SetEnumVariables env descriptor _ "property_type" = _
    rw [SetEnumVariables_property_type, if_pos ⟨hsingle, hfiles⟩]

/-- Scenario D: `status` with `Color` in `colors.proto` and external types
requested has the forward declaration, the dependency and the spelling.  Without
external types, or with the enum in a bundled file, the dependency and the
spelling are there and the forward declaration is not. -/
theorem forward_declaration_implies_dependency_witness :
    ((EnumFieldGenerator.new sampleCollaborators
          (statusField colorsProto false)).DetermineNeededFiles ∅ = {colorsProto} ∧
      (EnumFieldGenerator.new sampleCollaborators
          (statusField colorsProto false)).variables_ "property_type" = some "enum Color") ∧
    ((EnumFieldGenerator.new sampleCollaborators
          (statusField colorsProto false)).DetermineForwardDeclarations sampleCollaborators
          ∅ false = some ∅) ∧
    ((EnumFieldGenerator.new sampleCollaborators
          (statusField anyProto false)).DetermineForwardDeclarations sampleCollaborators
          ∅ true = some ∅ ∧
      (EnumFieldGenerator.new sampleCollaborators
          (statusField anyProto false)).DetermineNeededFiles ∅ = {anyProto} ∧
      (EnumFieldGenerator.new sampleCollaborators
          (statusField anyProto false)).variables_ "property_type" = some "enum Color") := by
  have h := forward_declaration_implies_dependency sampleCollaborators
    (statusField colorsProto false) ∅ true ∅ rfl
    ⟨{"GPB_ENUM_FWD_DECLARE(Color);"}, by decide, by decide, by decide⟩
  exact ⟨⟨h.1, h.2.2⟩, by decide, by decide, by decide, by decide⟩

/-! ## Several fields against the same sets -/

/-- The step for one field adds the file of the enum when it differs from the
file of the field, for the singular and for the repeated rule alike. -/
theorem FieldNeededFiles_eq (env : Collaborators) (deps : Finset FileDescriptor)
    (descriptor : FieldDescriptor) :
    FieldNeededFiles env deps descriptor
      = if descriptor.file ≠ descriptor.enum_type.file then
          insert descriptor.enum_type.file deps
        else deps := by
  unfold FieldNeededFiles
  cases descriptor.is_repeated <;> rfl

theorem FieldNeededFiles_subset (env : Collaborators) (deps : Finset FileDescriptor)
    (descriptor : FieldDescriptor) : deps ⊆ FieldNeededFiles env deps descriptor := by
  rw [FieldNeededFiles_eq]
  split_ifs
  · exact Finset.subset_insert _ _
  · exact Finset.Subset.refl _

theorem FieldNeededFiles_comm (env : Collaborators) (deps : Finset FileDescriptor)
    (x y : FieldDescriptor) :
    FieldNeededFiles env (FieldNeededFiles env deps x) y
      = FieldNeededFiles env (FieldNeededFiles env deps y) x := by
  simp only [FieldNeededFiles_eq]
  split_ifs
  · exact Finset.Insert.comm _ _ _
  · rfl
  · rfl
  · rfl

theorem FieldsNeededFiles_subset (env : Collaborators) (fields : List FieldDescriptor) :
    ∀ deps : Finset FileDescriptor, deps ⊆ FieldsNeededFiles env fields deps := by
  induction fields with
  | nil => intro deps; exact Finset.Subset.refl _
  | cons d rest ih =>
    intro deps
    exact (FieldNeededFiles_subset env deps d).trans (ih (FieldNeededFiles env deps d))

theorem FieldsNeededFiles_mem (env : Collaborators) (fields : List FieldDescriptor) :
    ∀ deps : Finset FileDescriptor, ∀ d ∈ fields, d.file ≠ d.enum_type.file →
      d.enum_type.file ∈ FieldsNeededFiles env fields deps := by
  induction fields with
  | nil => intro deps d hd; simp at hd
  | cons x rest ih =>
    intro deps d hd hfile
    rcases List.mem_cons.mp hd with hx | hrest
    · subst hx
      have hstep : d.enum_type.file ∈ FieldNeededFiles env deps d := by
        rw [FieldNeededFiles_eq, if_pos hfile]
        exact Finset.mem_insert_self _ _
      exact FieldsNeededFiles_subset env rest _ hstep
    · exact ih (FieldNeededFiles env deps x) d hrest hfile

/-- With a base method that adds nothing, the forward-declaration set after
several fields is a fold of insertions. -/
theorem FieldsForwardDeclarations_eq (env : Collaborators) (include_external_types : Bool)
    (hbase : ∀ (d : FieldDescriptor) (s : Finset String) (b : Bool),
      env.SingleFieldGenerator_DetermineForwardDeclarations d s b = s)
    (fields : List FieldDescriptor) :
    ∀ fwd_decls : Finset String,
      FieldsForwardDeclarations env include_external_types fields fwd_decls
        = some (fields.foldl
            (fun s d =>
              if include_external_types = true ∧ d.file ≠ d.enum_type.file ∧
                  env.IsProtobufLibraryBundledProtoFile d.enum_type.file = false then
                insert ("GPB_ENUM_FWD_DECLARE(" ++ env.EnumName d.enum_type ++ ");") s
              else s)
            fwd_decls) := by
  induction fields with
  | nil => intro fwd_decls; rfl
  | cons d rest ih =>
    intro fwd_decls
    unfold FieldsForwardDeclarations
    rw [DetermineForwardDeclarations_new, hbase]
    simp only [List.foldl_cons]
    exact ih _

theorem foldl_insert_subset {α β : Type} [DecidableEq β] (c : α → Prop) [DecidablePred c]
    (e : α → β) (l : List α) :
    ∀ s : Finset β, s ⊆ l.foldl (fun s d => if c d then insert (e d) s else s) s := by
  induction l with
  | nil => intro s; exact Finset.Subset.refl _
  | cons d rest ih =>
    intro s
    simp only [List.foldl_cons]
    refine Finset.Subset.trans ?_ (ih _)
    split_ifs
    · exact Finset.subset_insert _ _
    · exact Finset.Subset.refl _

/-- C17: `DetermineNeededFiles` of either rule keeps every file of the set it is
given and adds at most one; the result of `DetermineForwardDeclarations` keeps
every entry of the base result and adds at most one.  So the dependency set after
several fields contains the initial set and the enum file of every field declared
elsewhere, and is the same for every order of the fields; and, the base method
adding nothing, the forward-declaration set after several fields contains the
initial set and is the same for every order of the fields. -/
theorem sets_only_grow (env : Collaborators) :
    (∀ (descriptor : FieldDescriptor) (deps : Finset FileDescriptor),
      deps ⊆ (EnumFieldGenerator.new env descriptor).DetermineNeededFiles deps ∧
      ((EnumFieldGenerator.new env descriptor).DetermineNeededFiles deps \ deps).card ≤ 1 ∧
      deps ⊆ (RepeatedEnumFieldGenerator.new env descriptor).DetermineNeededFiles deps ∧
      ((RepeatedEnumFieldGenerator.new env descriptor).DetermineNeededFiles deps \ deps).card
        ≤ 1) ∧
    (∀ (descriptor : FieldDescriptor) (fwd_decls : Finset String)
        (include_external_types : Bool),
      ∃ result,
        (EnumFieldGenerator.new env descriptor).DetermineForwardDeclarations env fwd_decls
          include_external_types = some result ∧
        env.SingleFieldGenerator_DetermineForwardDeclarations descriptor fwd_decls
          include_external_types ⊆ result ∧
        (result \ env.SingleFieldGenerator_DetermineForwardDeclarations descriptor fwd_decls
          include_external_types).card ≤ 1) ∧
    (∀ (fields : List FieldDescriptor) (deps : Finset FileDescriptor),
      deps ⊆ FieldsNeededFiles env fields deps ∧
      ∀ d ∈ fields, d.file ≠ d.enum_type.file →
        d.enum_type.file ∈ FieldsNeededFiles env fields deps) ∧
    (∀ (fields reordered : List FieldDescriptor) (deps : Finset FileDescriptor),
      fields.Perm reordered →
        FieldsNeededFiles env fields deps = FieldsNeededFiles env reordered deps) ∧
    ((∀ (d : FieldDescriptor) (s : Finset String) (b : Bool),
        env.SingleFieldGenerator_DetermineForwardDeclarations d s b = s) →
      ∀ (include_external_types : Bool) (fields reordered : List FieldDescriptor)
          (fwd_decls : Finset String),
        fields.Perm reordered →
          FieldsForwardDeclarations env include_external_types fields fwd_decls
            = FieldsForwardDeclarations env include_external_types reordered fwd_decls ∧
          ∃ result,
            FieldsForwardDeclarations env include_external_types fields fwd_decls
              = some result ∧
            fwd_decls ⊆ result) := by
  have hone : ∀ {β : Type} [DecidableEq β] (a : β) (s : Finset β),
      (insert a s \ s).card ≤ 1 := by
    intro β _ a s
    have hsub : insert a s \ s ⊆ {a} := by
      intro x hx
      rw [Finset.mem_sdiff, Finset.mem_insert] at hx
      rcases hx with ⟨hx | hx, hnot⟩
      · exact Finset.mem_singleton.mpr hx
      · exact absurd hx hnot
    exact (Finset.card_le_card hsub).trans (by simp)
  have hdnf : ∀ (descriptor : FieldDescriptor) (deps : Finset FileDescriptor),
      deps ⊆ (EnumFieldGenerator.new env descriptor).DetermineNeededFiles deps ∧
      ((EnumFieldGenerator.new env descriptor).DetermineNeededFiles deps \ deps).card ≤ 1 := by
    intro descriptor deps
    show deps ⊆ (if descriptor.file ≠ descriptor.enum_type.file then
        insert descriptor.enum_type.file deps else deps) ∧
      ((if descriptor.file ≠ descriptor.enum_type.file then
        insert descriptor.enum_type.file deps else deps) \ deps).card ≤ 1
    split_ifs
    · exact ⟨Finset.subset_insert _ _, hone _ _⟩
    · exact ⟨Finset.Subset.refl _, by simp⟩
  refine ⟨fun descriptor deps => ⟨(hdnf descriptor deps).1, (hdnf descriptor deps).2,
    (hdnf descriptor deps).1, (hdnf descriptor deps).2⟩, ?_, ?_, ?_, ?_⟩
  · intro descriptor fwd_decls include_external_types
    refine ⟨_, DetermineForwardDeclarations_new env descriptor fwd_decls
      include_external_types, ?_⟩
    split_ifs
    · exact ⟨Finset.subset_insert _ _, hone _ _⟩
    · exact ⟨Finset.Subset.refl _, by simp⟩
  · intro fields deps
    exact ⟨FieldsNeededFiles_subset env fields deps, FieldsNeededFiles_mem env fields deps⟩
  · intro fields reordered deps hperm
    exact List.Perm.foldl_eq' hperm
      (fun x _ y _ z => FieldNeededFiles_comm env z x y) deps
  · intro hbase include_external_types fields reordered fwd_decls hperm
    rw [FieldsForwardDeclarations_eq env include_external_types hbase fields,
      FieldsForwardDeclarations_eq env include_external_types hbase reordered]
    refine ⟨?_, _, rfl, foldl_insert_subset _ _ fields fwd_decls⟩
    congr 1
    refine List.Perm.foldl_eq' hperm ?_ fwd_decls
    intro x _ y _ z
    split_ifs
    · exact Finset.Insert.comm _ _ _
    · rfl
    · rfl
    · rfl

/-- Three fields of `Widget` in two orders: one dependency set, which keeps the
file given at the start; two singular fields in two orders: one
forward-declaration set, which keeps the entry given at the start. -/
theorem sets_only_grow_witness :
    FieldsNeededFiles sampleCollaborators
        [shapeField, colorsField colorsProto false, statusField widgetProto false] {anyProto}
      = FieldsNeededFiles sampleCollaborators
        [statusField widgetProto false, colorsField colorsProto false, shapeField] {anyProto} ∧
    anyProto ∈ FieldsNeededFiles sampleCollaborators
        [shapeField, colorsField colorsProto false, statusField widgetProto false] {anyProto} ∧
    colorsProto ∈ FieldsNeededFiles sampleCollaborators
        [shapeField, colorsField colorsProto false, statusField widgetProto false] {anyProto} ∧
    FieldsForwardDeclarations sampleCollaborators true
        [statusField colorsProto false, shapeField] {"@class Gadget;"}
      = FieldsForwardDeclarations sampleCollaborators true
        [shapeField, statusField colorsProto false] {"@class Gadget;"} :=
  have h := sets_only_grow sampleCollaborators
  ⟨h.2.2.2.1 _ _ {anyProto} (by decide),
   (h.2.2.1 _ {anyProto}).1 (Finset.mem_singleton_self anyProto),
   (h.2.2.1 _ {anyProto}).2 (colorsField colorsProto false) (by decide) (by decide),
   (h.2.2.2.2 (fun _ _ _ => rfl) true _ _ {"@class Gadget;"}
      (List.Perm.swap shapeField (statusField colorsProto false) [])).1⟩

end ObjectiveC
